import Mathlib

/-!
Verification of the core of `polkadot-account-monitoring` against a shallow
embedding of its Rust sources.

The embedding translates the data model of `src/lib.rs` and `src/chain_api.rs`,
the deduplicating store operations and read-back queries of `src/database.rs`,
the pagination loop of `src/core.rs` (`ScrapingService::run_fetcher`), the
transfer report generator's time gate (`TransferReportGenerator::fetch_data`),
the in-memory dedup caches of `src/chain_api.rs`, the reward/slash row report
of `src/reporting/rewards_slashes.rs`, and the checkpoint-offset computation of
`src/database.rs` (`fetch_checkpoint_offset`).

Conventions:
- `u64` / `i64` values are modelled as `Nat` / `Int`; the one place where the
  source performs unchecked `u64` subtraction (`impl Sub for Timestamp`,
  `lib.rs:61-67`) is modelled as a checked subtraction returning `Option`,
  where `none` stands for the debug-build overflow panic.
- Fallible Rust code (`Result`, panics) is modelled with `Option` / `Except`.
- The MongoDB collections are modelled as lists of stored documents in
  insertion order; `update_one` with `$setOnInsert` + `upsert` on a filter is
  modelled as a conditional append.
- Network traffic is abstracted: the decoded response body is an input to the
  function that processes it.
-/

namespace Monitoring

/-- `Network` (`lib.rs:147-152`): selects one of the two monitored chains. -/
inductive Network where
  | Polkadot
  | Kusama
deriving DecidableEq, Repr

/-- `Network::as_str` (`lib.rs:154-161`). -/
def Network.as_str : Network → String
  | .Polkadot => "polkadot"
  | .Kusama => "kusama"

/-- `Context` (`lib.rs:119-124`): an account to monitor. -/
structure Context where
  stash : String
  network : Network
  description : String
deriving DecidableEq, Repr

/-- `ContextId` (`lib.rs:141-145`): the identity key of a context. -/
structure ContextId where
  stash : String
  network : Network
deriving DecidableEq, Repr

/-- `Context::id` (`lib.rs:130-135`). -/
def Context.id (c : Context) : ContextId :=
  { stash := c.stash, network := c.network }

/-- `Timestamp` (`lib.rs:44-45`): seconds since epoch, a `u64` newtype. -/
structure Timestamp where
  val : Nat
deriving DecidableEq, Repr

/-- `impl Sub for Timestamp` (`lib.rs:61-67`): `Timestamp(self.0 - other.0)`,
an unchecked `u64` subtraction. In a debug build this panics on overflow
(`a.val < b.val`); `none` models that panic. It does not saturate. -/
def Timestamp.sub (a b : Timestamp) : Option Timestamp :=
  if b.val ≤ a.val then some { val := a.val - b.val } else none

/- ===================== chain_api.rs data model ===================== -/

/-- `Response<T>` (`chain_api.rs:167-173`): the subscan response envelope. -/
structure Response (T : Type) where
  code : Nat
  data : T
  message : String
  ttl : Nat
deriving DecidableEq, Repr

/-- `Transfer` (`chain_api.rs:181-196`). The nested account-display structures
(`from_account_display`, `to_account_display`, which hold opaque
`serde_json::Value` judgements) are omitted: no code covered by the claims
reads them. `ExtrinsicIndex` is a `String` newtype in the source and is
modelled as a plain `String`. -/
structure Transfer where
  amount : String
  block_num : Int
  block_timestamp : Int
  extrinsic_index : String
  fee : String
  «from» : String
  hash : String
  module : String
  nonce : Int
  success : Bool
  «to» : String
deriving DecidableEq, Repr

/-- `TransfersPage` (`chain_api.rs:175-179`). -/
structure TransfersPage where
  count : Int
  transfers : Option (List Transfer)
deriving DecidableEq, Repr

/-- `RewardSlash` (`chain_api.rs:239-250`), plus the `amount` balance field.
Modelled from the spec: the revision of `chain_api.rs` that
`src/reporting/rewards_slashes.rs` compiles against (it reads `data.amount`
at line 94) is missing from `src/`; the spec describes the field as the
record's encoded balance `Value`, parsed as a float. `ExtrinsicHash` is a
`String` newtype in the source and is modelled as a plain `String`. -/
structure RewardSlash where
  event_index : String
  block_num : Int
  extrinsic_idx : Int
  module_id : String
  event_id : String
  params : String
  extrinsic_hash : String
  event_idx : Int
  amount : String
deriving DecidableEq, Repr

/-- `RewardsSlashesPage` (`chain_api.rs:232-237`). -/
structure RewardsSlashesPage where
  count : Nat
  list : Option (List RewardSlash)
deriving DecidableEq, Repr

/-- Modelled from the spec: the `Nomination` struct is missing from `src/`
(only its callers appear: `database.rs:170-226` reads
`stash_account_display.address`, `reporting/nominations.rs:93-94` also reads
`stash_account_display.display`). §3 of the spec keys nominations by the
validator stash display address. Only the fields those callers consume are
modelled. -/
structure AccountDisplay where
  address : String
  display : String
deriving DecidableEq, Repr

/-- Modelled from the spec: see `AccountDisplay`. -/
structure Nomination where
  stash_account_display : AccountDisplay
deriving DecidableEq, Repr

/-- Modelled from the spec: the page wrapper for nominations, named
`NominationsPage` by its importers (`database.rs:1-3`, `core.rs:1-3`); like
the other pages its list field decodes as `Option`. -/
structure NominationsPage where
  list : Option (List Nomination)
deriving DecidableEq, Repr

/- ===================== database.rs collection names ===================== -/

/-- `COLL_TRANSFER_RAW` (`database.rs:17`). -/
def COLL_TRANSFER_RAW : String := "raw_transfers"

/-- `COLL_REWARD_SLASH_RAW` (`database.rs:18`). -/
def COLL_REWARD_SLASH_RAW : String := "raw_rewards_slashes"

/-- `COLL_NOMINATIONS_RAW` (`database.rs:19`): the source sets this constant
to `"raw_rewards_slashes"`. -/
def COLL_NOMINATIONS_RAW : String := "raw_rewards_slashes"

/-- `COLL_CHECKPOINTS` (`database.rs:20`). -/
def COLL_CHECKPOINTS : String := "report_state"

/-- Collection that `store_nomination_event` writes to (`database.rs:175-177`:
`self.db.collection::<ContextData<Nomination>>(COLL_NOMINATIONS_RAW)`). -/
def store_nomination_event_collection : String := COLL_NOMINATIONS_RAW

/-- Collection that `store_reward_slash_event` writes to
(`database.rs:118-120`). -/
def store_reward_slash_event_collection : String := COLL_REWARD_SLASH_RAW

/-- Collection that `fetch_rewards_slashes` reads (`database.rs:297-299`). -/
def fetch_rewards_slashes_collection : String := COLL_REWARD_SLASH_RAW

/-- Collection that `fetch_nominations` reads (`database.rs:330-332`). -/
def fetch_nominations_collection : String := COLL_NOMINATIONS_RAW

/- ===================== chain_api.rs request URLs ===================== -/

/-- URL that `request_transfer` POSTs to (`chain_api.rs:70-79`): the string
literal `https://polkadot.api.subscan.io/api/scan/transfers`. The context is
an argument of the source function but is only used for the request body's
`address` field; it is not consulted when forming the URL. -/
def request_transfer_url (_context : Context) : String :=
  "https://polkadot.api.subscan.io/api/scan/transfers"

/-- URL that `request_reward_slash` POSTs to (`chain_api.rs:118-127`): the
string literal `https://polkadot.api.subscan.io/api/scan/account/reward_slash`,
again independent of the context. -/
def request_reward_slash_url (_context : Context) : String :=
  "https://polkadot.api.subscan.io/api/scan/account/reward_slash"

/-- The host that the spec prescribes for a network
(`https://<network>.api.subscan.io`). -/
def spec_host (n : Network) : String :=
  "https://" ++ n.as_str ++ ".api.subscan.io"

/- ===================== database.rs store operations ===================== -/

/-- `ContextData<T>` (`database.rs:37-43`): a stored document wrapping an
event with the originating context's identity key and the ingestion time. -/
structure ContextData (α : Type) where
  context_id : ContextId
  timestamp : Timestamp
  data : α
deriving DecidableEq, Repr

/-- A MongoDB collection, modelled as its documents in insertion order. -/
abbrev Collection (α : Type) := List (ContextData α)

/-- The `update_one` filter of the store ops (`database.rs:85-88`, `142-145`,
`199-202`): does a document with this `context_id` and this natural key
already exist in the collection? -/
def keyPresent {α : Type} (key : α → String) (coll : Collection α)
    (cid : ContextId) (e : α) : Bool :=
  coll.any fun d => decide (d.context_id = cid) && decide (key d.data = key e)

/-- One `update_one` with `$setOnInsert` and `upsert: true`
(`database.rs:83-98`): if no document matches the `(context_id, natural key)`
filter, the wrapped entry is appended (`upserted_id` set, flag `true`);
otherwise nothing changes (`modified_count = 0` as the source asserts, flag
`false`). -/
def condInsert {α : Type} (key : α → String) (cid : ContextId) (ts : Timestamp)
    (coll : Collection α) (e : α) : Collection α × Bool :=
  if keyPresent key coll cid e then (coll, false)
  else (coll ++ [{ context_id := cid, timestamp := ts, data := e }], true)

/-- The store loop shared by the three store ops (`database.rs:81-111`,
`137-168`, `194-225`): one conditional insert per entry, in page order,
counting the newly inserted entries. All entries of one call are wrapped with
the call-time ingestion timestamp (`Timestamp::now()`, `database.rs:75`). -/
def storeEvents {α : Type} (key : α → String) (cid : ContextId)
    (ts : Timestamp) : Collection α → List α → Collection α × Nat
  | coll, [] => (coll, 0)
  | coll, e :: es =>
    let step := condInsert key cid ts coll e
    let rest := storeEvents key cid ts step.1 es
    (rest.1, (if step.2 then 1 else 0) + rest.2)

/-- Natural key bound by `store_transfer_event` (`database.rs:87`):
`data.extrinsic_index`. -/
def transferKey (t : Transfer) : String := t.extrinsic_index

/-- Natural key bound by `store_reward_slash_event` (`database.rs:144`):
`data.extrinsic_hash`. -/
def rewardSlashKey (rs : RewardSlash) : String := rs.extrinsic_hash

/-- Natural key bound by `store_nomination_event` (`database.rs:201`):
`data.stash_account_display.address`. -/
def nominationKey (n : Nomination) : String := n.stash_account_display.address

/-- `Database::store_transfer_event` (`database.rs:56-112`): errors (`none`)
when the page's `transfers` field is absent; otherwise runs the conditional
insert per entry and returns the new collection and the insert count. -/
def store_transfer_event (coll : Collection Transfer) (context : Context)
    (ts : Timestamp) (data : Response TransfersPage) :
    Option (Collection Transfer × Nat) :=
  match data.data.transfers with
  | none => none
  | some entries => some (storeEvents transferKey context.id ts coll entries)

/-- `Database::store_reward_slash_event` (`database.rs:113-169`). -/
def store_reward_slash_event (coll : Collection RewardSlash) (context : Context)
    (ts : Timestamp) (data : Response RewardsSlashesPage) :
    Option (Collection RewardSlash × Nat) :=
  match data.data.list with
  | none => none
  | some entries => some (storeEvents rewardSlashKey context.id ts coll entries)

/-- `Database::store_nomination_event` (`database.rs:170-226`). -/
def store_nomination_event (coll : Collection Nomination) (context : Context)
    (ts : Timestamp) (data : Response NominationsPage) :
    Option (Collection Nomination × Nat) :=
  match data.data.list with
  | none => none
  | some entries => some (storeEvents nominationKey context.id ts coll entries)

/-- At most one document per `(context_id, natural key)` pair — §3 invariant 1
of the spec, maintained by the conditional inserts. -/
def CollUnique {α : Type} (key : α → String) (coll : Collection α) : Prop :=
  coll.Pairwise fun d1 d2 => ¬(d1.context_id = d2.context_id ∧ key d1.data = key d2.data)

/-- The conjunction of dedup-store properties claimed for a store op with
natural key `key`, for pages whose natural keys are pairwise distinct where
the count statements need it:
uniqueness preservation (an entry is inserted only if its key is absent),
pre-existing documents (ingestion timestamps included) left unchanged,
the count of newly inserted entries, idempotence of a second identical call,
and full re-insertion of the page under a different context. -/
def storeCorrect {α : Type} (key : α → String) : Prop :=
  ∀ (coll : Collection α) (cid cid2 : ContextId) (ts ts2 : Timestamp) (es : List α),
    (CollUnique key coll → CollUnique key (storeEvents key cid ts coll es).1) ∧
    (∃ ext, (storeEvents key cid ts coll es).1 = coll ++ ext ∧
      ∀ d ∈ ext, d.context_id = cid) ∧
    ((es.map key).Nodup →
      (storeEvents key cid ts coll es).2
        = (es.filter fun e => !(keyPresent key coll cid e)).length) ∧
    (storeEvents key cid ts2 (storeEvents key cid ts coll es).1 es
      = ((storeEvents key cid ts coll es).1, 0)) ∧
    ((es.map key).Nodup → cid ≠ cid2 →
      (∀ e ∈ es, keyPresent key coll cid2 e = false) →
      (storeEvents key cid2 ts2 (storeEvents key cid ts coll es).1 es).2 = es.length)

/- ===================== database.rs fetch_transfers ===================== -/

/-- The descending `block_num` order of the `$sort` stage
(`database.rs:277-281`): `d1` precedes `d2` when its `data.block_num` is the
larger. -/
def blockNumGE (d1 d2 : ContextData Transfer) : Prop :=
  d2.data.block_num ≤ d1.data.block_num

instance : DecidableRel blockNumGE :=
  fun d1 d2 => inferInstanceAs (Decidable (_ ≤ _))

instance : IsTotal (ContextData Transfer) blockNumGE :=
  ⟨fun a b => le_total b.data.block_num a.data.block_num⟩

instance : IsTrans (ContextData Transfer) blockNumGE :=
  ⟨fun _ _ _ h1 h2 => le_trans h2 h1⟩

/-- The `$match` stage of `fetch_transfers` (`database.rs:258-276`):
`context_id` among the given contexts' ids, and `data.block_timestamp` in the
inclusive range `[from, to]`. -/
def matchTransfer (contexts : List Context) (a b : Timestamp)
    (d : ContextData Transfer) : Bool :=
  decide (d.context_id ∈ contexts.map Context.id) &&
  (decide ((a.val : Int) ≤ d.data.block_timestamp) &&
    decide (d.data.block_timestamp ≤ (b.val : Int)))

/-- `DatabaseReader::fetch_transfers` (`database.rs:247-290`): the `$match`
filter followed by the `$sort {data.block_num: -1}` stage. The sort is
modelled with insertion sort; any algorithm agreeing with MongoDB on
sortedness and document multiset is interchangeable here. -/
def fetch_transfers (coll : Collection Transfer) (contexts : List Context)
    (a b : Timestamp) : Collection Transfer :=
  List.insertionSort blockNumGE (coll.filter (matchTransfer contexts a b))

/- ===================== core.rs scraping loop ===================== -/

/-- `ROW_AMOUNT` (`core.rs:14`). -/
def ROW_AMOUNT : Nat := 10

/-- One page's observable outcome in the pagination loop of
`ScrapingService::run_fetcher` (`core.rs:185-234`): whether the fetched
response `is_empty`, and the newly-inserted count the store op returned for
it. This abstracts `fetcher.fetch_data`/`fetcher.store_data` on an error-free
run (an error aborts the whole sweep and is handled by the supervisor). -/
abbrev PageOutcome := Bool × Nat

/-- The three break conditions of the loop body (`core.rs:189`, `core.rs:205`,
`core.rs:223`): empty response, zero newly inserted, or fewer than
`ROW_AMOUNT` newly inserted. -/
def pageBreak (o : PageOutcome) : Bool :=
  o.1 || decide (o.2 = 0) || decide (o.2 < ROW_AMOUNT)

/-- The per-account pagination loop (`core.rs:185-234`), run for at most
`fuel` iterations: `some page` is the page at which the loop broke, `none`
means the fuel ran out before any break condition held. -/
def runPages (env : Nat → PageOutcome) : Nat → Nat → Option Nat
  | 0, _ => none
  | fuel + 1, page =>
    let o := env page
    if o.1 then some page
    else if o.2 = 0 then some page
    else if o.2 < ROW_AMOUNT then some page
    else runPages env fuel (page + 1)

/-- The sweep over the account list (`core.rs:184-238`): each account's
paging loop starts at page 1 — `page` is reset to 1 after each account
(`core.rs:237`) and initialised to 1 before the first (`core.rs:177`). -/
def runSweep (envOf : Context → Nat → PageOutcome) (fuel : Nat) :
    List Context → Option (List Nat)
  | [] => some []
  | c :: cs =>
    match runPages (envOf c) fuel 1 with
    | none => none
    | some p => (runSweep envOf fuel cs).map (p :: ·)

/- ===================== core.rs transfer report generator ===================== -/

/-- `TransferReportGenerator` (`core.rs:493-499`): the fields the time gate
reads. `last_report` starts as `None` (`core.rs:505`). -/
structure TransferReportGenerator where
  report_range : Nat
  last_report : Option Timestamp
deriving DecidableEq, Repr

/-- `TransferReportGenerator::fetch_data` (`core.rs:530-554`). The outer
`Option` is panic-freedom: the gate evaluates the unchecked `u64` subtraction
`now - Timestamp::from(report_range)` (`core.rs:534`), which panics when
`report_range > now`. On `some r`, `r` is the source's `Ok` value: `some data`
when the gate `last_report < now - report_range` passes (`data` may be empty),
`none` otherwise. The receiver is `&self`, so the generator — in particular
`last_report` — cannot change; the source marks the missing update with
`TODO: Update last_report` (`core.rs:548`). -/
def TransferReportGenerator.fetch_data (g : TransferReportGenerator)
    (now : Timestamp) (contexts : List Context) (coll : Collection Transfer) :
    Option (Option (Collection Transfer)) :=
  match Timestamp.sub now { val := g.report_range } with
  | none => none
  | some threshold =>
    let last_report := g.last_report.getD { val := 0 }
    if last_report.val < threshold.val then
      some (some (fetch_transfers coll contexts last_report now))
    else
      some none

/-- One iteration of the report service loop body for the transfer report
(`core.rs:334-345`): `fetch_data`, then `generate`/`publish` over the data.
The generator value is only ever borrowed immutably, so the iteration leaves
it unchanged and yields the `fetch_data` outcome. -/
def reportLoopIter (g : TransferReportGenerator) (now : Timestamp)
    (contexts : List Context) (coll : Collection Transfer) :
    TransferReportGenerator × Option (Option (Collection Transfer)) :=
  (g, g.fetch_data now contexts coll)

/- ===================== chain_api.rs dedup caches ===================== -/

/-- The cache filtering and updating of `request_transfer`
(`chain_api.rs:62-108`), with the HTTP exchange abstracted into the decoded
response argument. The shared `cache_index` holds extrinsic indexes only —
no context component; the source uses its context argument solely for the
request body's `address`. The response's transfers are filtered to those
whose `extrinsic_index` is not yet cached (`retain`, `chain_api.rs:92`) and
the survivors' indexes are then cached (`chain_api.rs:97-105`). A response
with no `transfers` field is returned as is without touching the cache
(`chain_api.rs:81-83`). -/
def request_transfer (_context : Context) (cache : List String)
    (resp : Response TransfersPage) : Response TransfersPage × List String :=
  match resp.data.transfers with
  | none => (resp, cache)
  | some ts =>
    let kept := ts.filter fun t => !decide (t.extrinsic_index ∈ cache)
    ({ resp with data := { resp.data with transfers := some kept } },
      cache ++ kept.map fun t => t.extrinsic_index)

/-- The cache filtering and updating of `request_reward_slash`
(`chain_api.rs:110-157`), over the shared `cache_extrinsics` of extrinsic
hashes; same shape as `request_transfer`. -/
def request_reward_slash (_context : Context) (cache : List String)
    (resp : Response RewardsSlashesPage) :
    Response RewardsSlashesPage × List String :=
  match resp.data.list with
  | none => (resp, cache)
  | some rss =>
    let kept := rss.filter fun rs => !decide (rs.extrinsic_hash ∈ cache)
    ({ resp with data := { resp.data with list := some kept } },
      cache ++ kept.map fun rs => rs.extrinsic_hash)

/- ===================== reporting/rewards_slashes.rs ===================== -/

/-- One row of the per-event CSV `Network,Block Number,Address,Description,
Event,Value` (`reporting/rewards_slashes.rs:83`, `100-108`). -/
structure RewardSlashRow where
  network : String
  block_num : Int
  address : String
  description : String
  event_id : String
  value : ℚ
deriving DecidableEq, Repr

/-- Models `str::parse::<f64>` (`reporting/rewards_slashes.rs:94`) on the
plain decimal balance strings the explorer returns: the digits' value, `none`
on a malformed string; the float is idealised as a rational. -/
def parseBalance (s : String) : Option ℚ :=
  if s.length ≠ 0 ∧ s.toList.all Char.isDigit then
    some ((s.toList.foldl (fun acc c => acc * 10 + (c.toNat - 48)) 0 : Nat) : ℚ)
  else none

/-- The network divisor applied to a parsed balance
(`reporting/rewards_slashes.rs:95-98`): `10^12` for Kusama, `10^10` for
Polkadot. -/
def scaledAmount (n : Network) (amount : ℚ) : ℚ :=
  match n with
  | Network.Kusama => amount / 1000000000000
  | Network.Polkadot => amount / 10000000000

/-- The row list of the per-event CSV built by
`RewardSlashReportGenerator::generate` (`reporting/rewards_slashes.rs:86-128`):
one row per entry, in data order. The whole generation errors (`none`) when a
context join fails (`rewards_slashes.rs:88-91`), a balance does not parse
(`rewards_slashes.rs:94`), or an `event_id` is neither `Reward` nor `Slash`
(`rewards_slashes.rs:110-114`) — no report is emitted then. -/
def generateRows (contexts : List Context) :
    List (ContextData RewardSlash) → Option (List RewardSlashRow)
  | [] => some []
  | entry :: rest =>
    match contexts.find? (fun c => c.stash == entry.context_id.stash) with
    | none => none
    | some context =>
      match parseBalance entry.data.amount with
      | none => none
      | some amount =>
        if entry.data.event_id = "Reward" ∨ entry.data.event_id = "Slash" then
          (generateRows contexts rest).map (fun rows =>
            { network := context.network.as_str
            , block_num := entry.data.block_num
            , address := context.stash
            , description := context.description
            , event_id := entry.data.event_id
            , value := scaledAmount context.network amount } :: rows)
        else none

/- ===================== database.rs fetch_checkpoint_offset ===================== -/

/-- A calendar date, as chrono's `Date<Utc>`. -/
structure Date where
  year : Int
  month : Nat
  day : Nat
deriving DecidableEq, Repr

def isLeapYear (y : Int) : Bool :=
  (y % 4 == 0 && y % 100 != 0) || y % 400 == 0

def daysInMonth (y : Int) (m : Nat) : Nat :=
  if m = 2 then (if isLeapYear y then 29 else 28)
  else if m = 4 ∨ m = 6 ∨ m = 9 ∨ m = 11 then 30
  else 31

/-- chrono's `TimeZone::ymd` (used at `database.rs:373`, `378`, `383`, `400`):
it panics on an invalid or out-of-range date — month and day must be at least
1 and within range; `none` models that panic. -/
def ymd (y : Int) (m d : Nat) : Option Date :=
  if 1 ≤ m ∧ m ≤ 12 ∧ 1 ≤ d ∧ d ≤ daysInMonth y m then some { year := y, month := m, day := d }
  else none

/-- Day number of a civil date (days since 1970-01-01, proleptic Gregorian;
Hinnant's days-from-civil algorithm). -/
def daysFromCivil (dt : Date) : Int :=
  let y : Int := if dt.month ≤ 2 then dt.year - 1 else dt.year
  let era : Int := (if 0 ≤ y then y else y - 399).tdiv 400
  let yoe : Int := y - era * 400
  let mp : Int := if 2 < dt.month then (dt.month : Int) - 3 else (dt.month : Int) + 9
  let doy : Int := (153 * mp + 2).tdiv 5 + (dt.day : Int) - 1
  let doe : Int := yoe * 365 + yoe.tdiv 4 - yoe.tdiv 100 + doy
  era * 146097 + doe - 719468

/-- `now.signed_duration_since(then).num_days()`. -/
def numDaysSince (now thenD : Date) : Int :=
  daysFromCivil now - daysFromCivil thenD

/-- `ReportModuleId` is missing from `src/` (only used as the checkpoint map
key, `database.rs:347-420`); modelled as its identifier string. -/
abbrev ReportModuleId := String

/-- `Occurrence` (`reporting/mod.rs:13-19`). -/
inductive Occurrence where
  | Daily
  | Weekly
  | Monthly
deriving DecidableEq, Repr

/-- `OccurrenceIndex` (`database.rs:432-437`): a `(year, month, day)` triple
per granularity. -/
structure OccurrenceIndex where
  daily : Nat × Nat × Nat
  weekly : Nat × Nat × Nat
  monthly : Nat × Nat × Nat
deriving DecidableEq, Repr

/-- The triple `fetch_checkpoint_offset` reads for an occurrence
(`database.rs:370-386`). -/
def OccurrenceIndex.get (idx : OccurrenceIndex) (occ : Occurrence) : Nat × Nat × Nat :=
  match occ with
  | .Daily => idx.daily
  | .Weekly => idx.weekly
  | .Monthly => idx.monthly

/-- `Checkpoints` (`database.rs:416-430`); the `HashMap` is modelled as an
association list. `Default` sets `ty = "checkpoints"` and no indexes. -/
structure Checkpoints where
  ty : String
  indexes : List (ReportModuleId × OccurrenceIndex)
deriving DecidableEq, Repr

def Checkpoints.default : Checkpoints :=
  { ty := "checkpoints", indexes := [] }

/-- The per-occurrence offset (`database.rs:370-387`, `401-406`): days for
Daily, weeks (`num_weeks` = days `/` 7) for Weekly, days `/` 31 for Monthly;
`i64` division truncates toward zero. -/
def occurrenceOffset (occ : Occurrence) (now thenD : Date) : Int :=
  match occ with
  | .Daily => numDaysSince now thenD
  | .Weekly => (numDaysSince now thenD).tdiv 7
  | .Monthly => (numDaysSince now thenD).tdiv 31

/-- The shared tail of `fetch_checkpoint_offset` (`database.rs:399-412`),
reached when no stored checkpoint covers the module: computes the offset from
`Utc.ymd(1971, 0, 0)` (`database.rs:400`). `none` is the chrono panic on an
invalid date. -/
def checkpointFallback (stored : Option Checkpoints) (occ : Occurrence)
    (now : Date) : Option (Except String Nat × Option Checkpoints) :=
  match ymd 1971 0 0 with
  | none => none
  | some thenD =>
    let offset := occurrenceOffset occ now thenD
    if offset < 0 then
      some (Except.error "the calculated checkpoint offset is below zero", stored)
    else some (Except.ok offset.toNat, stored)

/-- `DatabaseReader::fetch_checkpoint_offset` (`database.rs:347-413`), with
the checkpoint document store passed as state: the second component is the
store after the call (`insert_one(Checkpoints::default())` happens only when
no checkpoint document existed at all, `database.rs:395-397`). The outer
`Option` is panic-freedom; the `Except` carries the fatal negative-offset
error. -/
def fetch_checkpoint_offset (stored : Option Checkpoints)
    (module_id : ReportModuleId) (occurrence : Occurrence) (now : Date) :
    Option (Except String Nat × Option Checkpoints) :=
  match stored with
  | some checkpoints =>
    match checkpoints.indexes.lookup module_id with
    | some index =>
      match ymd ((index.get occurrence).1 : Int) (index.get occurrence).2.1
          (index.get occurrence).2.2 with
      | none => none
      | some thenD =>
        let offset := occurrenceOffset occurrence now thenD
        if offset < 0 then
          some (Except.error "the calculated checkpoint offset is below zero", stored)
        else some (Except.ok offset.toNat, stored)
    | none => checkpointFallback stored occurrence now
  | none => checkpointFallback (some Checkpoints.default) occurrence now

/- ===================== concrete fixtures ===================== -/

/-- A context on the Kusama network, as a configuration would supply it. -/
def kusamaContext : Context :=
  { stash := "HrbPZsNqsyNv21xzWmh8XBBDbPDc1mpy7K5BhrMFSdBSs18"
  , network := Network.Kusama
  , description := "" }

/-- A monitored Polkadot account, as the accounts file would provide it. -/
def alice : Context := { stash := "addr-alice", network := Network.Polkadot, description := "" }

/-- A second monitored Polkadot account. -/
def bob : Context := { stash := "addr-bob", network := Network.Polkadot, description := "" }

/-- A transfer entry with the given natural key, block number and block
timestamp; the remaining fields are fixed filler. -/
def mkTransfer (idx : String) (bn bts : Int) : Transfer :=
  { amount := "1", block_num := bn, block_timestamp := bts, extrinsic_index := idx
  , fee := "0", «from» := "sender", hash := "0xh", module := "balances", nonce := 0
  , success := true, «to» := "receiver" }

/-- A page with two entries sharing one natural key. -/
def dupPage : List Transfer := [mkTransfer "0" 0 0, mkTransfer "0" 0 0]

/-- The duplicate-key page as a decoded API response. -/
def dupResp : Response TransfersPage :=
  { code := 0, data := { count := 2, transfers := some dupPage }, message := "", ttl := 0 }

/-- A page with two entries with distinct natural keys. -/
def twoPage : List Transfer := [mkTransfer "0" 0 0, mkTransfer "1" 1 100]

/-- Ten transfers with `block_timestamp = 0, 100, ..., 900` (spec §8
scenario 3, mirrored by the `fetch_transfers` test in `database.rs`). -/
def c6Page : List Transfer :=
  [mkTransfer "0" 0 0, mkTransfer "1" 1 100, mkTransfer "2" 2 200, mkTransfer "3" 3 300,
   mkTransfer "4" 4 400, mkTransfer "5" 5 500, mkTransfer "6" 6 600, mkTransfer "7" 7 700,
   mkTransfer "8" 8 800, mkTransfer "9" 9 900]

/-- The ten transfers as a decoded API response. -/
def c6Resp : Response TransfersPage :=
  { code := 0, data := { count := 10, transfers := some c6Page }, message := "", ttl := 0 }

/-- The six documents `fetch_transfers` must return for the range `[300, 800]`
after ingesting `c6Page` for `alice`: timestamps 300..800, in descending
`block_num` order. -/
def c6Expected : Collection Transfer :=
  [{ context_id := alice.id, timestamp := { val := 5 }, data := mkTransfer "8" 8 800 },
   { context_id := alice.id, timestamp := { val := 5 }, data := mkTransfer "7" 7 700 },
   { context_id := alice.id, timestamp := { val := 5 }, data := mkTransfer "6" 6 600 },
   { context_id := alice.id, timestamp := { val := 5 }, data := mkTransfer "5" 5 500 },
   { context_id := alice.id, timestamp := { val := 5 }, data := mkTransfer "4" 4 400 },
   { context_id := alice.id, timestamp := { val := 5 }, data := mkTransfer "3" 3 300 }]

/-- A transfer report generator configured with `report_range = 10` that has
never reported (`last_report = None`, as constructed at `core.rs:505`). -/
def gen10 : TransferReportGenerator := { report_range := 10, last_report := none }

/-- One stored transfer for `alice` with `block_timestamp = 500`. -/
def docC4 : ContextData Transfer :=
  { context_id := alice.id, timestamp := { val := 7 }, data := mkTransfer "0" 1 500 }

/-- A raw transfers collection holding just `docC4`. -/
def collC4 : Collection Transfer := [docC4]

/-- A page-outcome environment: pages 1 and 2 are full pages of 10 new
entries, page 3 yields 3 (spec §8 scenario 4). -/
def envC5 : Nat → PageOutcome := fun p => if p < 3 then (false, 10) else (false, 3)

/-- A reward/slash entry with the given extrinsic hash, balance string and
event id; the remaining fields are fixed filler. -/
def mkRS (hash amt event : String) : RewardSlash :=
  { event_index := "10-1", block_num := 10, extrinsic_idx := 1, module_id := "staking"
  , event_id := event, params := "[]", extrinsic_hash := hash, event_idx := 1, amount := amt }

/-- A stored reward with balance string `"0"` for the Kusama context. -/
def zeroRSDoc : ContextData RewardSlash :=
  { context_id := kusamaContext.id, timestamp := { val := 5 }, data := mkRS "0xa" "0" "Reward" }

/-- The CSV row the generator emits for `zeroRSDoc`: a row whose value is the
zero balance scaled by the Kusama divisor — that is, 0. -/
def zeroRSRow : RewardSlashRow :=
  { network := "kusama", block_num := 10, address := kusamaContext.stash
  , description := "", event_id := "Reward"
  , value := scaledAmount Network.Kusama ((0 : Nat) : ℚ) }

/-- A stored reward with balance string `"5"` for the Kusama context. -/
def fiveRSDoc : ContextData RewardSlash :=
  { context_id := kusamaContext.id, timestamp := { val := 5 }, data := mkRS "0xb" "5" "Reward" }

/-- The CSV row the generator emits for `fiveRSDoc`: the parsed balance 5
scaled by the Kusama divisor. -/
def fiveRSRow : RewardSlashRow :=
  { network := "kusama", block_num := 10, address := kusamaContext.stash
  , description := "", event_id := "Reward"
  , value := scaledAmount Network.Kusama ((5 : Nat) : ℚ) }

/-- The test-build reference date of `fetch_checkpoint_offset`
(`database.rs:366`): `Utc.ymd(2021, 6, 22)`. -/
def testNow : Date := { year := 2021, month := 6, day := 22 }

/-- An occurrence index with the same boundary triple at all granularities. -/
def occIdx (t : Nat × Nat × Nat) : OccurrenceIndex := { daily := t, weekly := t, monthly := t }

/-- A checkpoint document whose `transfers` boundary is 2021-06-20. -/
def cpsOk : Checkpoints :=
  { ty := "checkpoints", indexes := [("transfers", occIdx (2021, 6, 20))] }

/-- A checkpoint document whose `transfers` boundary is 2021-06-23 — one day
after `testNow`, so the computed offset is negative. -/
def cpsNeg : Checkpoints :=
  { ty := "checkpoints", indexes := [("transfers", occIdx (2021, 6, 23))] }

/-- A transfer for the cache witness. -/
def trW : Transfer := mkTransfer "w0" 1 100

/-- A one-entry transfers response for the cache witness. -/
def respW : Response TransfersPage :=
  { code := 0, data := { count := 1, transfers := some [trW] }, message := "", ttl := 0 }

/-- A reward/slash for the cache witness. -/
def rsW : RewardSlash := mkRS "0xw" "5" "Reward"

/-- A one-entry rewards response for the cache witness. -/
def respW2 : Response RewardsSlashesPage :=
  { code := 0, data := { count := 1, list := some [rsW] }, message := "", ttl := 0 }

/- ===================== Claim C2 ===================== -/

/-- C2: the claim says `store_nomination_event` writes only to a collection
named `raw_nominations`, distinct from the rewards/slashes collection. The
code instead defines `COLL_NOMINATIONS_RAW = "raw_rewards_slashes"`
(`database.rs:19`), so nominations are stored in the very collection that
`store_reward_slash_event` writes and `fetch_rewards_slashes` reads. This
theorem evaluates the collection wiring of the code at that point. -/
theorem c2_nomination_collection_collision :
    store_nomination_event_collection = "raw_rewards_slashes" ∧
    store_nomination_event_collection = fetch_rewards_slashes_collection ∧
    store_nomination_event_collection = store_reward_slash_event_collection ∧
    store_nomination_event_collection ≠ "raw_nominations" := by
  refine ⟨rfl, rfl, rfl, ?_⟩
  decide

/- ===================== Claim C3 ===================== -/

/-- C3: the claim says the outbound API request is issued to the host selected
by the context's network, in particular that a Kusama context POSTs to
`https://kusama.api.subscan.io`. The code hardcodes the polkadot host in both
`request_transfer` (`chain_api.rs:72`) and `request_reward_slash`
(`chain_api.rs:120`); this theorem evaluates both URL choices at a Kusama
context and shows they do not live under the spec's host for that network. -/
theorem c3_hardcoded_polkadot_host :
    request_transfer_url kusamaContext
      = "https://polkadot.api.subscan.io/api/scan/transfers" ∧
    request_reward_slash_url kusamaContext
      = "https://polkadot.api.subscan.io/api/scan/account/reward_slash" ∧
    kusamaContext.network = Network.Kusama ∧
    spec_host kusamaContext.network = "https://kusama.api.subscan.io" ∧
    request_transfer_url kusamaContext
      ≠ spec_host kusamaContext.network ++ "/api/scan/transfers" ∧
    request_reward_slash_url kusamaContext
      ≠ spec_host kusamaContext.network ++ "/api/scan/account/reward_slash" := by
  refine ⟨rfl, rfl, rfl, by decide, by decide, by decide⟩

/- ===================== store-operation lemmas ===================== -/

theorem storeEvents_cons {α : Type} (key : α → String) (cid : ContextId)
    (ts : Timestamp) (coll : Collection α) (e : α) (es : List α) :
    storeEvents key cid ts coll (e :: es)
      = ((storeEvents key cid ts (condInsert key cid ts coll e).1 es).1,
         (if (condInsert key cid ts coll e).2 then 1 else 0)
           + (storeEvents key cid ts (condInsert key cid ts coll e).1 es).2) := rfl

theorem condInsert_present {α : Type} {key : α → String} {cid : ContextId}
    {coll : Collection α} {e : α} (ts : Timestamp)
    (h : keyPresent key coll cid e = true) :
    condInsert key cid ts coll e = (coll, false) := by
  simp [condInsert, h]

theorem condInsert_absent {α : Type} {key : α → String} {cid : ContextId}
    {coll : Collection α} {e : α} (ts : Timestamp)
    (h : keyPresent key coll cid e = false) :
    condInsert key cid ts coll e
      = (coll ++ [{ context_id := cid, timestamp := ts, data := e }], true) := by
  simp [condInsert, h]

theorem storeEvents_cons_present {α : Type} {key : α → String} {cid : ContextId}
    {coll : Collection α} {e : α} (ts : Timestamp) (es : List α)
    (h : keyPresent key coll cid e = true) :
    storeEvents key cid ts coll (e :: es) = storeEvents key cid ts coll es := by
  rw [storeEvents_cons, condInsert_present ts h]
  simp

theorem storeEvents_cons_absent {α : Type} {key : α → String} {cid : ContextId}
    {coll : Collection α} {e : α} (ts : Timestamp) (es : List α)
    (h : keyPresent key coll cid e = false) :
    storeEvents key cid ts coll (e :: es)
      = ((storeEvents key cid ts
            (coll ++ [{ context_id := cid, timestamp := ts, data := e }]) es).1,
         1 + (storeEvents key cid ts
            (coll ++ [{ context_id := cid, timestamp := ts, data := e }]) es).2) := by
  rw [storeEvents_cons, condInsert_absent ts h]
  simp

theorem keyPresent_append {α : Type} (key : α → String) (c1 c2 : Collection α)
    (cid : ContextId) (e : α) :
    keyPresent key (c1 ++ c2) cid e
      = (keyPresent key c1 cid e || keyPresent key c2 cid e) := by
  simp [keyPresent, List.any_append]

theorem storeEvents_extends {α : Type} (key : α → String) (cid : ContextId)
    (ts : Timestamp) (es : List α) :
    ∀ coll : Collection α, ∃ ext, (storeEvents key cid ts coll es).1 = coll ++ ext ∧
      ∀ d ∈ ext, d.context_id = cid := by
  induction es with
  | nil =>
    intro coll
    exact ⟨[], by simp [storeEvents], by simp⟩
  | cons e es ih =>
    intro coll
    by_cases h : keyPresent key coll cid e = true
    · obtain ⟨ext, h1, h2⟩ := ih coll
      rw [storeEvents_cons_present ts es h]
      exact ⟨ext, h1, h2⟩
    · simp only [Bool.not_eq_true] at h
      obtain ⟨ext, h1, h2⟩ :=
        ih (coll ++ [{ context_id := cid, timestamp := ts, data := e }])
      rw [storeEvents_cons_absent ts es h]
      refine ⟨{ context_id := cid, timestamp := ts, data := e } :: ext, ?_, ?_⟩
      · simpa [List.append_assoc] using h1
      · intro d hd
        rcases List.mem_cons.mp hd with h | h
        · rw [h]
        · exact h2 d h

theorem storeEvents_keys_present {α : Type} (key : α → String) (cid : ContextId)
    (ts : Timestamp) (es : List α) :
    ∀ coll, ∀ e ∈ es, keyPresent key (storeEvents key cid ts coll es).1 cid e = true := by
  induction es with
  | nil =>
    intro coll e he
    cases he
  | cons a as ih =>
    intro coll e he
    by_cases h : keyPresent key coll cid a = true
    · rw [storeEvents_cons_present ts as h]
      rcases List.mem_cons.mp he with rfl | hmem
      · obtain ⟨ext, hext, _⟩ := storeEvents_extends key cid ts as coll
        rw [hext, keyPresent_append, h, Bool.true_or]
      · exact ih coll e hmem
    · simp only [Bool.not_eq_true] at h
      rw [storeEvents_cons_absent ts as h]
      rcases List.mem_cons.mp he with rfl | hmem
      · obtain ⟨ext, hext, _⟩ :=
          storeEvents_extends key cid ts as
            (coll ++ [{ context_id := cid, timestamp := ts, data := e }])
        show keyPresent key (storeEvents key cid ts
            (coll ++ [{ context_id := cid, timestamp := ts, data := e }]) as).1 cid e = true
        rw [hext, keyPresent_append, keyPresent_append]
        have hself : keyPresent key
            [{ context_id := cid, timestamp := ts, data := e }] cid e = true := by
          simp [keyPresent]
        rw [hself]
        simp
      · exact ih (coll ++ [{ context_id := cid, timestamp := ts, data := a }]) e hmem

theorem storeEvents_all_present {α : Type} (key : α → String) (cid : ContextId)
    (ts : Timestamp) (es : List α) :
    ∀ coll, (∀ e ∈ es, keyPresent key coll cid e = true) →
      storeEvents key cid ts coll es = (coll, 0) := by
  induction es with
  | nil =>
    intro coll _
    rfl
  | cons a as ih =>
    intro coll h
    rw [storeEvents_cons_present ts as (h a (List.mem_cons_self a as))]
    exact ih coll fun e he => h e (List.mem_cons_of_mem a he)

theorem storeEvents_idem {α : Type} (key : α → String) (cid : ContextId)
    (ts ts2 : Timestamp) (es : List α) (coll : Collection α) :
    storeEvents key cid ts2 (storeEvents key cid ts coll es).1 es
      = ((storeEvents key cid ts coll es).1, 0) :=
  storeEvents_all_present key cid ts2 es _ (storeEvents_keys_present key cid ts es coll)

theorem storeEvents_count {α : Type} (key : α → String) (cid : ContextId)
    (ts : Timestamp) (es : List α) :
    ∀ coll, (es.map key).Nodup →
      (storeEvents key cid ts coll es).2
        = (es.filter fun e => !(keyPresent key coll cid e)).length := by
  induction es with
  | nil =>
    intro coll _
    rfl
  | cons a as ih =>
    intro coll hnd
    rw [List.map_cons, List.nodup_cons] at hnd
    obtain ⟨hna, hnd⟩ := hnd
    by_cases h : keyPresent key coll cid a = true
    · rw [storeEvents_cons_present ts as h, List.filter_cons_of_neg (by simp [h])]
      exact ih coll hnd
    · simp only [Bool.not_eq_true] at h
      rw [storeEvents_cons_absent ts as h, List.filter_cons_of_pos (by simp [h])]
      show 1 + (storeEvents key cid ts
          (coll ++ [{ context_id := cid, timestamp := ts, data := a }]) as).2 = _
      have ih2 := ih (coll ++ [({ context_id := cid, timestamp := ts, data := a } :
        ContextData α)]) hnd
      rw [ih2]
      have heq : (as.filter fun e => !(keyPresent key
            (coll ++ [{ context_id := cid, timestamp := ts, data := a }]) cid e))
          = (as.filter fun e => !(keyPresent key coll cid e)) := by
        apply List.filter_congr
        intro x hx
        have hne : ¬ key a = key x := fun hkey => hna (hkey ▸ List.mem_map_of_mem key hx)
        rw [keyPresent_append]
        have hsingle : keyPresent key
            [{ context_id := cid, timestamp := ts, data := a }] cid x = false := by
          simp [keyPresent, hne]
        rw [hsingle, Bool.or_false]
      rw [heq, List.length_cons, Nat.add_comm]

theorem storeEvents_unique {α : Type} (key : α → String) (cid : ContextId)
    (ts : Timestamp) (es : List α) :
    ∀ coll, CollUnique key coll → CollUnique key (storeEvents key cid ts coll es).1 := by
  induction es with
  | nil =>
    intro coll h
    exact h
  | cons a as ih =>
    intro coll h
    by_cases hp : keyPresent key coll cid a = true
    · rw [storeEvents_cons_present ts as hp]
      exact ih coll h
    · simp only [Bool.not_eq_true] at hp
      rw [storeEvents_cons_absent ts as hp]
      refine ih _ ?_
      unfold CollUnique at h ⊢
      rw [List.pairwise_append]
      refine ⟨h, by simp, ?_⟩
      intro d hd b hb
      rw [List.mem_singleton] at hb
      subst hb
      rintro ⟨hcid, hkey⟩
      simp only [keyPresent, List.any_eq_false] at hp
      have := hp d hd
      simp [hcid, hkey] at this

theorem storeEvents_other_absent {α : Type} (key : α → String)
    (cid cid2 : ContextId) (ts : Timestamp) (es : List α)
    (hne : cid ≠ cid2) (coll : Collection α)
    (habs : ∀ e ∈ es, keyPresent key coll cid2 e = false) :
    ∀ e ∈ es, keyPresent key (storeEvents key cid ts coll es).1 cid2 e = false := by
  intro e he
  obtain ⟨ext, hext, hcid⟩ := storeEvents_extends key cid ts es coll
  rw [hext, keyPresent_append, habs e he, Bool.false_or]
  simp only [keyPresent, List.any_eq_false]
  intro d hd
  simp [hcid d hd, hne]

theorem storeEvents_cross_count {α : Type} (key : α → String)
    (cid cid2 : ContextId) (ts ts2 : Timestamp) (es : List α)
    (hnd : (es.map key).Nodup) (hne : cid ≠ cid2) (coll : Collection α)
    (habs : ∀ e ∈ es, keyPresent key coll cid2 e = false) :
    (storeEvents key cid2 ts2 (storeEvents key cid ts coll es).1 es).2 = es.length := by
  rw [storeEvents_count key cid2 ts2 es _ hnd]
  have hall := storeEvents_other_absent key cid cid2 ts es hne coll habs
  rw [List.filter_congr (fun x hx => by simp [hall x hx] : ∀ x ∈ es, _ = (fun _ => true) x)]
  simp

theorem storeCorrect_all {α : Type} (key : α → String) : storeCorrect key := by
  intro coll cid cid2 ts ts2 es
  exact ⟨storeEvents_unique key cid ts es coll,
    storeEvents_extends key cid ts es coll,
    storeEvents_count key cid ts es coll,
    storeEvents_idem key cid ts ts2 es coll,
    fun hnd hne habs => storeEvents_cross_count key cid cid2 ts ts2 es hnd hne coll habs⟩

/- ===================== Claim C1 ===================== -/

/-- C1 (amended): each of the three store operations performs one conditional
insert per page entry — an entry is inserted only if no document with its
`(context_id, natural key)` exists at that point (uniqueness of the pair is
preserved), pre-existing documents and their ingestion timestamps are left
unchanged (the collection only grows by a suffix of new documents carrying the
calling context's id); for a page whose natural keys are pairwise distinct the
returned count is exactly the number of entries whose key did not previously
exist under that context; a second identical call inserts nothing and returns
0; and a page re-stored under a different context whose keys are not yet
present under that context is inserted in full. -/
theorem c1_store_dedup :
    (∀ coll context ts page, store_transfer_event coll context ts page
       = Option.map (fun es => storeEvents transferKey context.id ts coll es)
           page.data.transfers) ∧
    (∀ coll context ts page, store_reward_slash_event coll context ts page
       = Option.map (fun es => storeEvents rewardSlashKey context.id ts coll es)
           page.data.list) ∧
    (∀ coll context ts page, store_nomination_event coll context ts page
       = Option.map (fun es => storeEvents nominationKey context.id ts coll es)
           page.data.list) ∧
    storeCorrect transferKey ∧ storeCorrect rewardSlashKey ∧
    storeCorrect nominationKey := by
  refine ⟨?_, ?_, ?_, storeCorrect_all _, storeCorrect_all _, storeCorrect_all _⟩
  · intro coll context ts page
    cases h : page.data.transfers <;> simp [store_transfer_event, h]
  · intro coll context ts page
    cases h : page.data.list <;> simp [store_reward_slash_event, h]
  · intro coll context ts page
    cases h : page.data.list <;> simp [store_nomination_event, h]

/-- C1 counterexample: for a page holding the same natural key twice, storing
into an empty collection returns 1, while the claim's count — the number of
page entries whose key did not exist before the call — is 2; and re-storing
the same page under a different context likewise inserts 1 of its 2 entries
rather than "every entry anew". -/
theorem c1_counterexample :
    (store_transfer_event [] alice { val := 5 } dupResp).map (fun r => r.2) = some 1 ∧
    (dupPage.filter fun e => !(keyPresent transferKey [] alice.id e)).length = 2 ∧
    (storeEvents transferKey bob.id { val := 6 }
        (storeEvents transferKey alice.id { val := 5 } [] dupPage).1 dupPage).2 = 1 ∧
    dupPage.length = 2 := by
  refine ⟨by decide, by decide, by decide, by decide⟩

/-- C1 witness: the amended theorem applied to a two-entry page with distinct
keys over the empty collection: 2 entries are inserted, the identical second
call inserts 0, and the same page under the other context inserts 2 again. -/
theorem c1_store_dedup_witness :
    (twoPage.map transferKey).Nodup ∧
    (storeEvents transferKey alice.id { val := 1 } [] twoPage).2 = 2 ∧
    storeEvents transferKey alice.id { val := 2 }
        (storeEvents transferKey alice.id { val := 1 } [] twoPage).1 twoPage
      = ((storeEvents transferKey alice.id { val := 1 } [] twoPage).1, 0) ∧
    (storeEvents transferKey bob.id { val := 2 }
        (storeEvents transferKey alice.id { val := 1 } [] twoPage).1 twoPage).2 = 2 := by
  have h := c1_store_dedup.2.2.2.1 [] alice.id bob.id { val := 1 } { val := 2 } twoPage
  refine ⟨by decide, ?_, h.2.2.2.1, ?_⟩
  · rw [h.2.2.1 (by decide)]
    decide
  · rw [h.2.2.2.2 (by decide) (by decide) (fun e _ => rfl)]
    decide

/- ===================== Claim C4 ===================== -/

/-- C4: the claim says `last_report` is updated after a successful publish so
that a second `fetch_data` within `report_range` seconds returns none. In the
code `fetch_data` computes the gate from `last_report` but nothing ever writes
`last_report` back (`core.rs:548` is `TODO: Update last_report`, and the
generator is only borrowed immutably). Evaluated at `report_range = 10`: the
iteration at `now = 1000` reports the stored data and leaves the generator
unchanged, and the next iteration at `now = 1001` — 1 second later, well
within the 10-second range — reports the very same data again instead of
returning none. -/
theorem c4_last_report_never_updated :
    gen10.last_report = none ∧
    (reportLoopIter gen10 { val := 1000 } [alice] collC4).1 = gen10 ∧
    (reportLoopIter gen10 { val := 1000 } [alice] collC4).2 = some (some [docC4]) ∧
    (reportLoopIter gen10 { val := 1001 } [alice] collC4).2 = some (some [docC4]) := by
  refine ⟨rfl, rfl, by decide, by decide⟩

/- ===================== Claim C10 ===================== -/

/-- C10: `Timestamp` subtraction is the unchecked `u64` subtraction
`Timestamp(self.0 - other.0)` (`lib.rs:61-67`): for `a < b` it overflows —
modelled as `none`, the debug-build panic — instead of saturating; and since
`TransferReportGenerator::fetch_data` evaluates
`now - Timestamp::from(report_range)` (`core.rs:534`), it fails whenever the
configured `report_range` exceeds the current unix time instead of treating
the window as unbounded. -/
theorem c10_timestamp_sub_unchecked :
    (∀ a b : Timestamp, a.val < b.val → Timestamp.sub a b = none) ∧
    (∀ (g : TransferReportGenerator) (now : Timestamp) (contexts : List Context)
        (coll : Collection Transfer), now.val < g.report_range →
      g.fetch_data now contexts coll = none) := by
  constructor
  · intro a b h
    unfold Timestamp.sub
    rw [if_neg (Nat.not_le.mpr h)]
  · intro g now contexts coll h
    unfold TransferReportGenerator.fetch_data
    have hsub : Timestamp.sub now { val := g.report_range } = none := by
      unfold Timestamp.sub
      rw [if_neg (Nat.not_le.mpr h)]
    rw [hsub]

/-- C10 witness: the theorem at `a = 1 < b = 2` and at a generator whose
`report_range` (100) exceeds `now` (5). -/
theorem c10_timestamp_sub_unchecked_witness :
    Timestamp.sub { val := 1 } { val := 2 } = none ∧
    TransferReportGenerator.fetch_data { report_range := 100, last_report := none }
      { val := 5 } [] [] = none :=
  ⟨c10_timestamp_sub_unchecked.1 { val := 1 } { val := 2 } (by decide),
   c10_timestamp_sub_unchecked.2 { report_range := 100, last_report := none }
     { val := 5 } [] [] (by decide)⟩

/- ===================== pagination-loop lemmas ===================== -/

theorem runPages_succ_break {env : Nat → PageOutcome} {p : Nat} (fuel : Nat)
    (h : pageBreak (env p) = true) : runPages env (fuel + 1) p = some p := by
  simp only [pageBreak, Bool.or_eq_true, decide_eq_true_eq] at h
  simp only [runPages]
  rcases h with (h | h) | h
  · simp [h]
  · by_cases h1 : (env p).1 <;> simp [h1, h]
  · by_cases h1 : (env p).1
    · simp [h1]
    · by_cases h2 : (env p).2 = 0 <;> simp [h1, h2, h]

theorem runPages_succ_continue {env : Nat → PageOutcome} {p : Nat} (fuel : Nat)
    (h : pageBreak (env p) = false) :
    runPages env (fuel + 1) p = runPages env fuel (p + 1) := by
  simp only [pageBreak, Bool.or_eq_false_iff, decide_eq_false_iff_not] at h
  simp [runPages, h.1.1, h.1.2, h.2]

theorem runPages_none_of_no_break (env : Nat → PageOutcome) :
    ∀ fuel p, (∀ k, pageBreak (env (p + k)) = false) → runPages env fuel p = none := by
  intro fuel
  induction fuel with
  | zero =>
    intro p _
    rfl
  | succ n ih =>
    intro p h
    rw [runPages_succ_continue n (by simpa using h 0)]
    refine ih (p + 1) fun k => ?_
    rw [Nat.add_assoc, Nat.add_comm 1 k]
    exact h (k + 1)

theorem runPages_reach (env : Nat → PageOutcome) :
    ∀ k p, pageBreak (env (p + k)) = true →
      (∀ j, j < k → pageBreak (env (p + j)) = false) →
      runPages env (k + 1) p = some (p + k) := by
  intro k
  induction k with
  | zero =>
    intro p hb _
    simpa using runPages_succ_break 0 (by simpa using hb)
  | succ n ih =>
    intro p hb hmin
    have h0 : pageBreak (env p) = false := by simpa using hmin 0 (Nat.succ_pos n)
    rw [runPages_succ_continue (n + 1) h0]
    have hb2 : pageBreak (env (p + 1 + n)) = true := by
      rw [Nat.add_assoc, Nat.add_comm 1 n]
      exact hb
    have hmin2 : ∀ j, j < n → pageBreak (env (p + 1 + j)) = false := by
      intro j hj
      rw [Nat.add_assoc, Nat.add_comm 1 j]
      exact hmin (j + 1) (Nat.succ_lt_succ hj)
    rw [ih (p + 1) hb2 hmin2, Nat.add_assoc, Nat.add_comm 1 n]

/- ===================== Claim C5 ===================== -/

/-- C5: for every fetcher and account, the per-account paging loop of
`ScrapingService::run_fetcher` — abstracted over the observed per-page
outcomes `env` — terminates (breaks within some fuel) if and only if some
page satisfies one of the three break conditions: empty response, 0 newly
inserted, or fewer than `ROW_AMOUNT` (= 10) newly inserted; on a page
satisfying none of them the loop continues with the page counter incremented
by 1; and the sweep starts every account's loop at page 1. -/
theorem c5_pagination_termination (env : Nat → PageOutcome)
    (envOf : Context → Nat → PageOutcome) (c : Context) (cs : List Context)
    (fuel : Nat) :
    ((∃ f, (runPages env f 1).isSome) ↔ (∃ k, pageBreak (env (1 + k)) = true)) ∧
    (∀ f p, pageBreak (env p) = false → runPages env (f + 1) p = runPages env f (p + 1)) ∧
    (runSweep envOf fuel (c :: cs)
      = match runPages (envOf c) fuel 1 with
        | none => none
        | some p => (runSweep envOf fuel cs).map (p :: ·)) ∧
    ROW_AMOUNT = 10 := by
  refine ⟨⟨?_, ?_⟩, fun f p h => runPages_succ_continue f h, rfl, rfl⟩
  · rintro ⟨f, hf⟩
    by_contra hnone
    push_neg at hnone
    have hall : ∀ k, pageBreak (env (1 + k)) = false := fun k => by
      have h := hnone k
      revert h
      cases pageBreak (env (1 + k)) <;> simp
    rw [runPages_none_of_no_break env f 1 hall] at hf
    simp at hf
  · rintro ⟨k, hk⟩
    classical
    have hex : ∃ k, pageBreak (env (1 + k)) = true := ⟨k, hk⟩
    refine ⟨Nat.find hex + 1, ?_⟩
    rw [runPages_reach env (Nat.find hex) 1 (Nat.find_spec hex) fun j hj => ?_]
    · simp
    · have h := Nat.find_min hex hj
      revert h
      cases pageBreak (env (1 + j)) <;> simp

/-- C5 witness: the theorem applied to the environment of spec §8 scenario 4
(full pages of 10 at pages 1 and 2, then 3 new entries at page 3): the loop
terminates because page 3 breaks, and, page 1 breaking no condition, the loop
continues from page 1 to page 2. -/
theorem c5_pagination_termination_witness :
    (∃ f, (runPages envC5 f 1).isSome) ∧ runPages envC5 3 1 = runPages envC5 2 2 := by
  have h := c5_pagination_termination envC5 (fun _ => envC5) kusamaContext [] 1
  exact ⟨h.1.mpr ⟨2, by decide⟩, h.2.1 2 1 (by decide)⟩

/- ===================== Claim C6 ===================== -/

/-- C6: `fetch_transfers` returns exactly the stored transfer documents whose
`context_id` is among the given contexts' ids and whose `data.block_timestamp`
lies in the inclusive range `[from, to]` (a permutation of that filter),
sorted by `data.block_num` in descending order; and, concretely, after
storing 10 transfers with timestamps 0, 100, ..., 900 for one context,
fetching `[300, 800]` returns exactly the 6 documents with timestamps
300..800 in descending block order. -/
theorem c6_fetch_transfers_range (coll : Collection Transfer)
    (contexts : List Context) (a b : Timestamp) (h : a.val ≤ b.val) :
    (fetch_transfers coll contexts a b).Perm
        (coll.filter (matchTransfer contexts a b)) ∧
    (fetch_transfers coll contexts a b).Sorted blockNumGE ∧
    (store_transfer_event [] alice { val := 5 } c6Resp).map
        (fun r => fetch_transfers r.1 [alice] { val := 300 } { val := 800 })
      = some c6Expected := by
  refine ⟨List.perm_insertionSort blockNumGE _, List.sorted_insertionSort blockNumGE _,
    by decide⟩

/-- C6 witness: the range endpoints 300 ≤ 800 satisfy the claim's `from ≤ to`
hypothesis, under which the theorem delivers the concrete ten-transfer
read-back. -/
theorem c6_fetch_transfers_range_witness :
    (300 : Nat) ≤ 800 ∧
    (store_transfer_event [] alice { val := 5 } c6Resp).map
        (fun r => fetch_transfers r.1 [alice] { val := 300 } { val := 800 })
      = some c6Expected :=
  ⟨by decide,
   (c6_fetch_transfers_range [] [] { val := 300 } { val := 800 } (by decide)).2.2⟩

/- ===================== cache lemmas ===================== -/

theorem filter_cached_empty {α : Type} (key : α → String) (cache : List String)
    (l : List α) :
    (l.filter fun t => !decide (key t ∈
        cache ++ (l.filter fun t => !decide (key t ∈ cache)).map key)) = [] := by
  rw [List.filter_eq_nil_iff]
  intro a ha
  simp only [Bool.not_eq_true', decide_eq_false_iff_not, not_not, List.mem_append]
  by_cases hc : key a ∈ cache
  · exact Or.inl hc
  · refine Or.inr (List.mem_map_of_mem key ?_)
    rw [List.mem_filter]
    exact ⟨ha, by simp [hc]⟩

/- ===================== Claim C9 ===================== -/

/-- C9: the in-memory dedup caches of `ChainApi` are keyed by the natural key
alone and shared across contexts: the filtering and cache update of
`request_transfer` (and of `request_reward_slash`) do not depend on the
context at all; the returned page keeps exactly the entries whose key is not
yet cached; and fetching the same payload a second time — under a different
context — yields an empty entry list, because the first call cached every
surviving key. -/
theorem c9_shared_cache (cache cache2 : List String)
    (resp : Response TransfersPage) (resp2 : Response RewardsSlashesPage)
    (cA cB cC cD : Context) (trs : List Transfer) (rss : List RewardSlash)
    (h : resp.data.transfers = some trs) (h2 : resp2.data.list = some rss) :
    (∀ ca cb : Context,
      request_transfer ca cache resp = request_transfer cb cache resp ∧
      request_reward_slash ca cache2 resp2 = request_reward_slash cb cache2 resp2) ∧
    (request_transfer cA cache resp).1.data.transfers
      = some (trs.filter fun t => !decide (t.extrinsic_index ∈ cache)) ∧
    (request_transfer cB (request_transfer cA cache resp).2 resp).1.data.transfers
      = some [] ∧
    (request_reward_slash cC cache2 resp2).1.data.list
      = some (rss.filter fun rs => !decide (rs.extrinsic_hash ∈ cache2)) ∧
    (request_reward_slash cD (request_reward_slash cC cache2 resp2).2
        resp2).1.data.list = some [] := by
  refine ⟨fun ca cb => ⟨rfl, rfl⟩, ?_, ?_, ?_, ?_⟩
  · simp [request_transfer, h]
  · simp only [request_transfer, h]
    rw [show ((trs.filter fun t => !decide (t.extrinsic_index ∈
        cache ++ (trs.filter fun t => !decide (t.extrinsic_index ∈ cache)).map
          fun t => t.extrinsic_index)) = []) from ?_]
    · exact filter_cached_empty (fun t => t.extrinsic_index) cache trs
  · simp [request_reward_slash, h2]
  · simp only [request_reward_slash, h2]
    rw [show ((rss.filter fun rs => !decide (rs.extrinsic_hash ∈
        cache2 ++ (rss.filter fun rs => !decide (rs.extrinsic_hash ∈ cache2)).map
          fun rs => rs.extrinsic_hash)) = []) from ?_]
    · exact filter_cached_empty (fun rs => rs.extrinsic_hash) cache2 rss

/-- C9 witness: the theorem at a concrete one-transfer payload fetched twice,
first under `alice` then under `bob`: the first response keeps the entry, the
second response is empty, for transfers and rewards alike. -/
theorem c9_shared_cache_witness :
    (request_transfer alice [] respW).1.data.transfers = some [trW] ∧
    (request_transfer bob (request_transfer alice [] respW).2 respW).1.data.transfers
      = some [] ∧
    (request_reward_slash bob (request_reward_slash alice [] respW2).2
        respW2).1.data.list = some [] := by
  have h := c9_shared_cache [] [] respW respW2 alice bob alice bob [trW] [rsW] rfl rfl
  refine ⟨?_, h.2.2.1, h.2.2.2.2⟩
  rw [h.2.1]
  decide

/- ===================== Claim C7 ===================== -/

/-- C7 (amended): in the row report of `RewardSlashReportGenerator::generate`
no entry is dropped — when generation succeeds, it emits exactly one CSV row
per data entry, zero balances included, and each row's value is the parsed
balance scaled by the network-specific divisor: `10^10` for Polkadot and
`10^12` for Kusama. -/
theorem c7_reward_rows (contexts : List Context) :
    ∀ (data : List (ContextData RewardSlash)) (rows : List RewardSlashRow),
      generateRows contexts data = some rows →
      rows.length = data.length ∧
      ∀ i (hi : i < data.length) (hr : i < rows.length),
        ∃ c amt,
          contexts.find? (fun c2 => c2.stash == (data.get ⟨i, hi⟩).context_id.stash)
            = some c ∧
          parseBalance (data.get ⟨i, hi⟩).data.amount = some amt ∧
          (rows.get ⟨i, hr⟩).value
            = (match c.network with
               | Network.Polkadot => amt / 10000000000
               | Network.Kusama => amt / 1000000000000) := by
  intro data
  induction data with
  | nil =>
    intro rows h
    simp only [generateRows, Option.some.injEq] at h
    subst h
    exact ⟨rfl, fun i hi _ => absurd hi (Nat.not_lt_zero i)⟩
  | cons entry rest ih =>
    intro rows h
    unfold generateRows at h
    cases hf : contexts.find? (fun c2 => c2.stash == entry.context_id.stash) with
    | none =>
      simp [hf] at h
    | some c =>
      cases hp : parseBalance entry.data.amount with
      | none =>
        simp [hf, hp] at h
      | some amt =>
        by_cases hev : entry.data.event_id = "Reward" ∨ entry.data.event_id = "Slash"
        · cases hrest : generateRows contexts rest with
          | none =>
            simp [hf, hp, hrest, if_pos hev] at h
          | some tailRows =>
            simp only [hf, hp, hrest, if_pos hev, Option.map_some',
              Option.some.injEq] at h
            subst h
            obtain ⟨hlen, hidx⟩ := ih tailRows hrest
            refine ⟨by simp [hlen], ?_⟩
            intro i hi hr
            cases i with
            | zero =>
              refine ⟨c, amt, hf, hp, ?_⟩
              show scaledAmount c.network amt = _
              cases c.network <;> rfl
            | succ j =>
              exact hidx j (Nat.lt_of_succ_lt_succ hi) (Nat.lt_of_succ_lt_succ hr)
        · simp [hf, hp, if_neg hev] at h

/-- C7 counterexample: an entry whose balance string is `"0"` parses to zero
yet is not dropped: the generated row report contains its row, with value 0. -/
theorem c7_counterexample :
    generateRows [kusamaContext] [zeroRSDoc] = some [zeroRSRow] ∧
    zeroRSRow.value = 0 ∧
    parseBalance zeroRSDoc.data.amount = some 0 := by
  refine ⟨rfl, by norm_num [zeroRSRow, scaledAmount], by decide⟩

/-- C7 witness: the amended theorem applied to a one-entry Kusama data set
with balance `"5"`: generation succeeds and emits one row per entry, its value
being 5 divided by the Kusama divisor `10^12`. -/
theorem c7_reward_rows_witness :
    generateRows [kusamaContext] [fiveRSDoc] = some [fiveRSRow] ∧
    fiveRSRow.value = (5 : ℚ) / 1000000000000 ∧
    [fiveRSRow].length = [fiveRSDoc].length :=
  ⟨rfl, by norm_num [fiveRSRow, scaledAmount],
   (c7_reward_rows [kusamaContext] [fiveRSDoc] [fiveRSRow] rfl).1⟩

/- ===================== Claim C8 ===================== -/

/-- C8: `fetch_checkpoint_offset` does return an error when the computed
offset is negative (second conjunct, boundary one day after `now`), but when
no checkpoint document — or no entry for the module — exists, it does not
return the bucket count since a distant past date: the fallback evaluates
`Utc.ymd(1971, 0, 0)` (`database.rs:400`), an invalid date on which chrono
panics (month and day 0 do not exist), so the call aborts (`none`) for every
occurrence; the count since 1971 is never produced. The first conjunct shows
the non-fallback path working normally (boundary 2 days before `now` gives
offset 2). -/
theorem c8_checkpoint_offset :
    fetch_checkpoint_offset (some cpsOk) "transfers" Occurrence.Daily testNow
      = some (Except.ok 2, some cpsOk) ∧
    fetch_checkpoint_offset (some cpsNeg) "transfers" Occurrence.Daily testNow
      = some (Except.error "the calculated checkpoint offset is below zero",
          some cpsNeg) ∧
    fetch_checkpoint_offset none "transfers" Occurrence.Daily testNow = none ∧
    fetch_checkpoint_offset (some Checkpoints.default) "transfers"
        Occurrence.Weekly testNow = none ∧
    (∀ stored occ now, checkpointFallback stored occ now = none) := by
  refine ⟨rfl, rfl, rfl, rfl, fun stored occ now => rfl⟩

end Monitoring
